import Mathlib

/-!
Verification development for the hf-propagation-eink server (server.js).

The JavaScript source is shallowly embedded: numbers are modelled as
integers and exact rationals, the JavaScript NaN produced by parseInt or
parseFloat on non-numeric text is modelled as the value none of an Option,
JavaScript objects used as ordered string-keyed maps are modelled as
association lists with JS assignment semantics (update in place keeps the
key position, a new key is appended), and a thrown TypeError is modelled
with Except.
-/

namespace HfProp

/-! ## JavaScript primitives -/

/-- Math.round of JavaScript: round half toward positive infinity. -/
def jround (x : ℚ) : ℤ := Rat.floor (x + 1/2)

/-- String.prototype.toLowerCase restricted to the ASCII strings that occur
in the program (condition ratings and fixed patterns). -/
def lowerStr (s : String) : String := ⟨s.toList.map Char.toLower⟩

/-- pat occurs at the head of s. -/
def leadsWith : List Char → List Char → Bool
  | [], _ => true
  | _ :: _, [] => false
  | a :: pa, b :: sb => a == b && leadsWith pa sb

/-- pat occurs somewhere in s (as a contiguous run). -/
def occursIn (pat : List Char) : List Char → Bool
  | [] => pat.isEmpty
  | b :: rest => leadsWith pat (b :: rest) || occursIn pat rest

/-- String.prototype.includes of JavaScript. -/
def strIncludes (s pat : String) : Bool := occursIn pat.toList s.toList

/-- Whitespace trimmed by parseInt and parseFloat (ASCII subset; the extra
Unicode space code points never occur in the feed). -/
def isJsSpace (c : Char) : Bool := c == ' ' || c == '\t' || c == '\n' || c == '\r'

/-- Value of a run of decimal digit characters. -/
def digitsVal (ds : List Char) : ℤ :=
  ds.foldl (fun a c => 10 * a + ((c.toNat : ℤ) - 48)) 0

/-- parseInt(s, 10) of JavaScript: trim leading whitespace, optional sign,
then the longest leading run of decimal digits; none models NaN (no digit). -/
def jsParseInt10 (s : String) : Option ℤ :=
  let cs := s.toList.dropWhile isJsSpace
  let signed : ℤ × List Char :=
    match cs with
    | '+' :: r => (1, r)
    | '-' :: r => (-1, r)
    | _ => (1, cs)
  let ds := signed.2.takeWhile Char.isDigit
  if ds.isEmpty then none else some (signed.1 * digitsVal ds)

/-- Hexadecimal digit test (0-9, a-f, A-F). -/
def isHexDig (c : Char) : Bool :=
  c.isDigit || ('a' ≤ c && c ≤ 'f') || ('A' ≤ c && c ≤ 'F')

/-- Value of a run of hexadecimal digit characters. -/
def hexDigitsVal (ds : List Char) : ℤ :=
  ds.foldl (fun a c =>
    16 * a + (if c.isDigit then (c.toNat : ℤ) - 48
      else ((c.toLower.toNat : ℤ) - 97) + 10)) 0

/-- parseInt(s) of JavaScript with no radix argument: as radix 10, except
that a 0x or 0X prefix switches to hexadecimal (used by the middleware). -/
def jsParseIntAuto (s : String) : Option ℤ :=
  let cs := s.toList.dropWhile isJsSpace
  let signed : ℤ × List Char :=
    match cs with
    | '+' :: r => (1, r)
    | '-' :: r => (-1, r)
    | _ => (1, cs)
  match signed.2 with
  | '0' :: x :: rest =>
    if x == 'x' || x == 'X' then
      let ds := rest.takeWhile isHexDig
      if ds.isEmpty then none else some (signed.1 * hexDigitsVal ds)
    else
      let ds := (('0' : Char) :: x :: rest).takeWhile Char.isDigit
      some (signed.1 * digitsVal ds)
  | other =>
    let ds := other.takeWhile Char.isDigit
    if ds.isEmpty then none else some (signed.1 * digitsVal ds)

/-- parseFloat(s) of JavaScript on finite decimal inputs: trim, optional
sign, digits with an optional fraction part and an optional exponent part,
reading the longest valid prefix; none models NaN. The Infinity literal is
not modelled (it never occurs in the feed and no claim depends on it). -/
def jsParseFloat (s : String) : Option ℚ :=
  let cs := s.toList.dropWhile isJsSpace
  let signed : ℚ × List Char :=
    match cs with
    | '+' :: r => (1, r)
    | '-' :: r => (-1, r)
    | _ => (1, cs)
  let intPart := signed.2.takeWhile Char.isDigit
  let afterInt := signed.2.dropWhile Char.isDigit
  let fracPart : List Char × List Char :=
    match afterInt with
    | '.' :: r => (r.takeWhile Char.isDigit, r.dropWhile Char.isDigit)
    | _ => ([], afterInt)
  if intPart.isEmpty && fracPart.1.isEmpty then none
  else
    let mantissa : ℚ :=
      (digitsVal (intPart ++ fracPart.1) : ℚ) / ((10 : ℚ) ^ fracPart.1.length)
    let expVal : ℤ :=
      match fracPart.2 with
      | 'e' :: r => (jsParseInt10 ⟨r⟩).getD 0
      | 'E' :: r => (jsParseInt10 ⟨r⟩).getD 0
      | _ => 0
    some (signed.1 * mantissa * (10 : ℚ) ^ expVal)

/-! ## Feed parser data model (parseSolarXml, server.js lines 85-151)

The xml2js output is a duck-typed object tree: each child element becomes an
array of values, an element with attributes carries an attribute bag under
the dollar key and its text under the underscore key. The fields the code
touches are modelled; an absent property is none. -/

/-- Scalar JavaScript value stored in a field of the canonical record: a
string, or an int or float where none models NaN. -/
inductive JsVal where
  | str (s : String)
  | int (n : Option ℤ)
  | float (q : Option ℚ)
deriving DecidableEq

/-- Target type argument of safeParse (the strings passed at each call). -/
inductive SType where
  | string
  | int
  | float
deriving DecidableEq

/-- safeParse of server.js lines 101-107: absent or empty array gives the
sentinel, otherwise the first element is converted per the target type
(parseInt with radix 10, parseFloat, or the raw string). -/
def safeParse (arr : Option (List String)) (ty : SType) : JsVal :=
  match arr with
  | none => .str "N/A"
  | some [] => .str "N/A"
  | some (v :: _) =>
    match ty with
    | .int => .int (jsParseInt10 v)
    | .float => .float (jsParseFloat v)
    | .string => .str v

/-- A band or phenomenon element as decoded by xml2js: text content under
the underscore key and the attribute bag (name and time, or name and
location) under the dollar key; either may be absent. -/
structure RawEntry where
  content : Option String := none
  attrs : Option (String × String) := none
deriving DecidableEq

/-- Wrapper element of calculatedconditions holding the band list. -/
structure CondGroup where
  band : Option (List RawEntry) := none
deriving DecidableEq

/-- Wrapper element of calculatedvhfconditions holding the phenomenon
list. -/
structure PhenGroup where
  phenomenon : Option (List RawEntry) := none
deriving DecidableEq

/-- The solardata element: every scalar child is an optional array of
strings, plus the two nested tabular collections. -/
structure SolarData where
  source : Option (List String) := none
  updated : Option (List String) := none
  solarflux : Option (List String) := none
  aindex : Option (List String) := none
  kindex : Option (List String) := none
  kindexnt : Option (List String) := none
  xray : Option (List String) := none
  sunspots : Option (List String) := none
  heliumline : Option (List String) := none
  protonflux : Option (List String) := none
  electonflux : Option (List String) := none
  aurora : Option (List String) := none
  normalization : Option (List String) := none
  latdegree : Option (List String) := none
  solarwind : Option (List String) := none
  magneticfield : Option (List String) := none
  geomagfield : Option (List String) := none
  signalnoise : Option (List String) := none
  fof2 : Option (List String) := none
  muf : Option (List String) := none
  muffactor : Option (List String) := none
  calculatedconditions : Option (List CondGroup) := none
  calculatedvhfconditions : Option (List PhenGroup) := none
deriving DecidableEq

/-- The solar element of the decoded document. -/
structure RawSolar where
  solardata : Option (List SolarData) := none
deriving DecidableEq

/-- The whole decoded document (result of xml2js). -/
structure RawResult where
  solar : Option RawSolar := none
deriving DecidableEq

/-- A thrown JavaScript TypeError (property access or destructuring on
undefined). -/
inductive JsErr where
  | typeError
deriving DecidableEq

/-- Ordered string-keyed JavaScript object with values of type a. -/
abbrev JsObj (a : Type) : Type := List (String × a)

/-- Property read on a JavaScript object. -/
def jsGet {a : Type} : List (String × a) → String → Option a
  | [], _ => none
  | (k, v) :: rest, key => if k = key then some v else jsGet rest key

/-- Property assignment on a JavaScript object: an existing key keeps its
position and gets the new value, a new key is appended. -/
def jsSet {a : Type} : List (String × a) → String → a → List (String × a)
  | [], key, v => [(key, v)]
  | (k, w) :: rest, key, v =>
    if k = key then (key, v) :: rest else (k, w) :: jsSet rest key v

/-- The two-level condition mapping built by the reduce folds. -/
abbrev TwoMap : Type := List (String × List (String × Option String))

/-- Destructuring an entry as the reduce callback does: reading name and
the secondary attribute out of the dollar bag throws when the bag is
absent. -/
def entryKV (e : RawEntry) : Except JsErr (String × String × Option String) :=
  match e.attrs with
  | none => .error .typeError
  | some (n, k) => .ok (n, k, e.content)

/-- One step of the reduce fold of server.js lines 131-137 and 138-144:
acc[name] = acc[name] || empty; acc[name][key] = text content. -/
def condStep (acc : TwoMap) (kv : String × String × Option String) : TwoMap :=
  let inner := (jsGet acc kv.1).getD []
  jsSet acc kv.1 (jsSet inner kv.2.1 kv.2.2)

/-- The reduce fold over a list of entries, propagating the destructuring
TypeError of a dollar-less entry. -/
def condReduce (entries : List RawEntry) : Except JsErr TwoMap :=
  entries.foldlM (fun acc e => (entryKV e).map (condStep acc)) []

/-- The calculatedconditions expression of server.js lines 131-137:
optional chaining ending in an empty object default. -/
def condsOf (sd : SolarData) : Except JsErr TwoMap :=
  match sd.calculatedconditions with
  | none => .ok []
  | some [] => .ok []
  | some (g :: _) =>
    match g.band with
    | none => .ok []
    | some es => condReduce es

/-- The calculatedvhfconditions expression of server.js lines 138-144. -/
def vhfOf (sd : SolarData) : Except JsErr TwoMap :=
  match sd.calculatedvhfconditions with
  | none => .ok []
  | some [] => .ok []
  | some (g :: _) =>
    match g.phenomenon with
    | none => .ok []
    | some es => condReduce es

/-- The canonical record built by parseSolarXml (server.js lines 109-145). -/
structure Record where
  source : JsVal
  updated : JsVal
  solarflux : JsVal
  aindex : JsVal
  kindex : JsVal
  kindexnt : JsVal
  xray : JsVal
  sunspots : JsVal
  heliumline : JsVal
  protonflux : JsVal
  electonflux : JsVal
  aurora : JsVal
  normalization : JsVal
  latdegree : JsVal
  solarwind : JsVal
  magneticfield : JsVal
  geomagfield : JsVal
  signalnoise : JsVal
  fof2 : JsVal
  muf : JsVal
  muffactor : JsVal
  calculatedconditions : TwoMap
  calculatedvhfconditions : TwoMap
deriving DecidableEq

/-- Construction of the record from one solardata element (the object
literal of server.js lines 109-145). -/
def recordOf (sd : SolarData) : Except JsErr Record := do
  let cc ← condsOf sd
  let vhf ← vhfOf sd
  return {
    source := safeParse sd.source .string
    updated := safeParse sd.updated .string
    solarflux := safeParse sd.solarflux .int
    aindex := safeParse sd.aindex .int
    kindex := safeParse sd.kindex .int
    kindexnt := safeParse sd.kindexnt .string
    xray := safeParse sd.xray .string
    sunspots := safeParse sd.sunspots .int
    heliumline := safeParse sd.heliumline .float
    protonflux := safeParse sd.protonflux .int
    electonflux := safeParse sd.electonflux .int
    aurora := safeParse sd.aurora .int
    normalization := safeParse sd.normalization .float
    latdegree := safeParse sd.latdegree .float
    solarwind := safeParse sd.solarwind .float
    magneticfield := safeParse sd.magneticfield .float
    geomagfield := safeParse sd.geomagfield .string
    signalnoise := safeParse sd.signalnoise .string
    fof2 := safeParse sd.fof2 .string
    muf := safeParse sd.muf .string
    muffactor := safeParse sd.muffactor .string
    calculatedconditions := cc
    calculatedvhfconditions := vhf }

/-- parseSolarXml on a decoded document: the access chain
result.solar.solardata[0] throws when the envelope is absent (property
access on undefined), then the record literal is evaluated. -/
def parseSolarXml (r : RawResult) : Except JsErr Record :=
  match r.solar with
  | none => .error .typeError
  | some so =>
    match so.solardata with
    | none => .error .typeError
    | some [] => .error .typeError
    | some (sd :: _) => recordOf sd

/-- The decoded document contains the top-level solar-data envelope:
result.solar.solardata has a first element. -/
def hasEnvelope (r : RawResult) : Bool :=
  match r.solar with
  | some so =>
    match so.solardata with
    | some (_ :: _) => true
    | _ => false
  | none => false

/-- A numeric-typed canonical field is the sentinel or a valid number: the
NaN results (int none, float none) and non-sentinel strings fail this. -/
def numericOk : JsVal → Bool
  | .str s => s = "N/A"
  | .int o => o.isSome
  | .float o => o.isSome

/-! ## Settings and the query middleware (server.js lines 28-54) -/

/-- The settings object. mode, invert and bw_mode are integers (the
middleware pins them to 0 or 1); width, height and the font sizes are
parseInt or Math.round results, where none models NaN. -/
structure Settings where
  mode : ℤ
  invert : ℤ
  width : Option ℤ
  height : Option ℤ
  fontSizeSmall : Option ℤ
  fontSizeNormal : Option ℤ
  fontSizeLarge : Option ℤ
  LINE_SPACING_DEFAULT : ℤ
  bw_mode : ℤ
deriving DecidableEq

/-- defaultSettings of server.js lines 28-38. -/
def defaultSettings : Settings :=
  { mode := 1, invert := 0, width := some 800, height := some 480,
    fontSizeSmall := some 20, fontSizeNormal := some 22,
    fontSizeLarge := some 22, LINE_SPACING_DEFAULT := 30, bw_mode := 0 }

/-- The query string as express hands it to the middleware, modelled as an
ordered map from parameter name to value (repeated parameters, which
express turns into arrays, never occur in the claims and are not
modelled). -/
abbrev Query : Type := List (String × String)

/-- The middleware of server.js lines 42-54, mutating the shared settings
object. mode is kept only for the exact strings 0 and 1 (parseInt on those
strings gives the matching integer), likewise invert; width and height go
through parseInt with no radix, with the numeric default stringified when
the parameter is absent; bw_mode is set when the parameter bw_mode equals
the string 1. -/
def applySettings (q : Query) (st : Settings) : Settings :=
  { st with
    mode := match jsGet q "mode" with
      | some "0" => 0
      | some "1" => 1
      | _ => defaultSettings.mode
    invert := match jsGet q "invert" with
      | some "0" => 0
      | some "1" => 1
      | _ => defaultSettings.invert
    width := match jsGet q "width" with
      | some s => jsParseIntAuto s
      | none => some 800
    height := match jsGet q "height" with
      | some s => jsParseIntAuto s
      | none => some 480
    bw_mode := if jsGet q "bw_mode" = some "1" then 1
      else defaultSettings.bw_mode }

/-! ## Themes and condition colors (server.js lines 158-206) -/

/-- One color palette of the theme table. -/
structure Theme where
  background : String
  title : String
  subtitle : String
  text : String
  separator : String
  good : String
  green : String
  fair : String
  poor : String
deriving DecidableEq

/-- theme.normal of server.js lines 160-163. -/
def themeNormal : Theme :=
  { background := "#000000", title := "#cccccc", subtitle := "#aaaaaa",
    text := "#ffffff", separator := "#555555", good := "#00ff00",
    green := "#00ff00", fair := "#FFA500", poor := "#ff0000" }

/-- theme.invert of server.js lines 164-167. -/
def themeInvert : Theme :=
  { background := "#ffffff", title := "#555", subtitle := "#666",
    text := "#000000", separator := "#555555", good := "#00ff00",
    green := "#000000", fair := "#FFA500", poor := "#ff0000" }

/-- theme.bw of server.js lines 169-172. -/
def themeBW : Theme :=
  { background := "#ffffff", title := "#000000", subtitle := "#333333",
    text := "#000000", separator := "#bbbbbb", good := "#000000",
    green := "#000000", fair := "#000000", poor := "#000000" }

/-- The palette choice of server.js line 176: bw_mode wins, then invert,
else normal. -/
def chooseColors (st : Settings) : Theme :=
  if st.bw_mode = 1 then themeBW
  else if st.invert ≠ 0 then themeInvert else themeNormal

/-- setConditionColor of server.js lines 195-206. -/
def setConditionColor (st : Settings) (condition : String) : String :=
  let colors := chooseColors st
  if st.bw_mode = 1 then colors.text
  else if st.mode = 0 then colors.text
  else if strIncludes (lowerStr condition) "good" then colors.good
  else if strIncludes (lowerStr condition) "mid lat aur" then colors.good
  else if strIncludes (lowerStr condition) "fair" then colors.fair
  else if strIncludes (lowerStr condition) "poor" then colors.poor
  else if strIncludes (lowerStr condition) "closed" then colors.poor
  else colors.text

/-- The effective highlight fill color of server.js lines 258-271. -/
def highlightColorOf (st : Settings) : String :=
  if st.bw_mode = 1 then "#000000"
  else if st.mode = 0 then "#555555" else (chooseColors st).green

/-- The effective highlight text color of server.js lines 258-271. -/
def highlightTextColorOf (st : Settings) : String :=
  if st.bw_mode = 1 then "#ffffff"
  else if st.mode = 0 then "#ffffff" else (chooseColors st).background

/-- The fill color drawConditionCell (server.js lines 213-254) sets just
before drawing the condition text: a condition containing good is drawn in
the highlight text color (white in black-and-white mode, the inherited
highlight text color otherwise), anything else through setConditionColor. -/
def drawConditionCellTextColor (st : Settings) (hTextColor : String)
    (condition : String) : String :=
  if strIncludes (lowerStr condition) "good" then
    (if st.bw_mode = 1 then "#ffffff" else hTextColor)
  else setConditionColor st condition

/-- Ink color of an HF table cell as render invokes drawConditionCell
(server.js lines 444-445), passing the effective highlight text color. -/
def hfCellInkColor (st : Settings) (condition : String) : String :=
  drawConditionCellTextColor st (highlightTextColorOf st) condition

/-! ## Feed cache (getSolarXml, server.js lines 56-83) -/

/-- cacheInterval of server.js line 56 (milliseconds). -/
def cacheInterval : ℤ := 5 * 60 * 1000

/-- The process-wide cache state: lastFetch timestamp and lastData
payload (none models null). -/
structure CacheState where
  lastFetch : ℤ
  lastData : Option String
deriving DecidableEq

/-- getSolarXml of server.js lines 60-83 as a state transition. now is
Date.now(); fetch models the outcome the fetch attempt would have (some
payload on success, none on failure). The result carries the returned
payload or the propagated error, the new cache state, and whether a fetch
was attempted. In the fresh-cache branch the guard guarantees lastData is
present; the none case there is unreachable. -/
def getSolarXml (now : ℤ) (fetch : Option String) (st : CacheState) :
    Except Unit String × CacheState × Bool :=
  if st.lastData = none ∨ now - st.lastFetch > cacheInterval then
    match fetch with
    | some xml => (.ok xml, ⟨now, some xml⟩, true)
    | none =>
      match st.lastData with
      | none => (.error (), st, true)
      | some d => (.ok d, st, true)
  else
    match st.lastData with
    | some d => (.ok d, st, false)
    | none => (.error (), st, false)

/-! ## Render geometry (renderSolarCanvas, server.js lines 154-505)

The vertical layout is parameterized by the height alone, so the drawn
y-coordinates are embedded as functions of the height h. SCALE_FACTOR is
settings.height / defaultSettings.height (line 178). -/

/-- SCALE_FACTOR of server.js line 178 for a numeric height. -/
def scaleF (h : ℤ) : ℚ := (h : ℚ) / 480

/-- LINE_SPACING of server.js line 184: Math.round(30 * SCALE_FACTOR). -/
def lineSpacing (h : ℤ) : ℤ := jround (30 * scaleF h)

/-- The mutation renderSolarCanvas performs on the shared settings object
at lines 180-182: the three font sizes are overwritten with the scaled,
rounded baselines 20, 22 and 22 of defaultSettings; a NaN height yields
NaN font sizes. No other field is touched. -/
def renderSettingsUpdate (st : Settings) : Settings :=
  { st with
    fontSizeSmall := st.height.map (fun h => jround (20 * scaleF h))
    fontSizeNormal := st.height.map (fun h => jround (22 * scaleF h))
    fontSizeLarge := st.height.map (fun h => jround (22 * scaleF h)) }

/-- Header baseline, line 288: Math.round(40 * SCALE_FACTOR). -/
def headerY (h : ℤ) : ℤ := jround (40 * scaleF h)

/-- Subtitle baseline, line 293: Math.round(70 * SCALE_FACTOR). -/
def subtitleY (h : ℤ) : ℤ := jround (70 * scaleF h)

/-- First separator line, lines 299-300: Math.round(85 * SCALE_FACTOR). -/
def sep1Y (h : ℤ) : ℤ := jround (85 * scaleF h)

/-- First data row, line 312: Math.round(125 * SCALE_FACTOR). -/
def row1Y (h : ℤ) : ℤ := jround (125 * scaleF h)

/-- Data row k of the three-column table for k = 0..3 (row 1 at k = 0, the
looped rows advance by LINE_SPACING, lines 381-397). -/
def tableRowY (h : ℤ) (k : ℤ) : ℤ := row1Y h + k * lineSpacing h

/-- The value of yPos after the table loop: row1Y plus four line
advances. -/
def yPosAfterTable (h : ℤ) : ℤ := row1Y h + 4 * lineSpacing h

/-- Second separator, lines 403-404:
Math.round(yPos - LINE_SPACING + LINE_SPACING * 0.83). -/
def sep2Y (h : ℤ) : ℤ :=
  jround ((yPosAfterTable h : ℚ) - (lineSpacing h : ℚ)
    + (lineSpacing h : ℚ) * (83/100))

/-- HF Band Conditions title, line 408:
yPos = Math.round(yPos - LINE_SPACING + LINE_SPACING * 2.33). -/
def hfTitleY (h : ℤ) : ℤ :=
  jround ((yPosAfterTable h : ℚ) - (lineSpacing h : ℚ)
    + (lineSpacing h : ℚ) * (233/100))

/-- HF table header row (Band / Day / Night), line 417. -/
def hfHeaderY (h : ℤ) : ℤ := hfTitleY h + lineSpacing h

/-- HF band row k (zero-based), lines 434-448: the first row one line
below the header, then each row advances Math.round(LINE_SPACING * 1.16). -/
def hfBandRowY (h : ℤ) (k : ℤ) : ℤ :=
  hfHeaderY h + lineSpacing h + k * jround ((lineSpacing h : ℚ) * (116/100))

/-- VHF / EME title, line 452: Math.round(285 * SCALE_FACTOR). -/
def vhfTitleY (h : ℤ) : ℤ := jround (285 * scaleF h)

/-- VHF condition row k (zero-based), lines 459-480: one line below the
title, each row advances Math.round(LINE_SPACING * 1.13). -/
def vhfRowY (h : ℤ) (k : ℤ) : ℤ :=
  vhfTitleY h + lineSpacing h + k * jround ((lineSpacing h : ℚ) * (113/100))

/-- Start of the right-hand metrics column, line 484:
Math.round(315 * SCALE_FACTOR). -/
def lastColStartY (h : ℤ) : ℤ := jround (315 * scaleF h)

/-- Line k (zero-based) of the right-hand metrics column, lines 493-502:
each line advances LINE_SPACING + 3, the 3 not being scaled. -/
def lastColRowY (h : ℤ) (k : ℤ) : ℤ := lastColStartY h + k * (lineSpacing h + 3)

/-- Top edge of the row-1 highlight rectangles, line 319: yPos minus the
scaled normal font size plus Math.round(5 * SCALE_FACTOR) minus
Math.round(4 * SCALE_FACTOR). -/
def rectRow1Y (h : ℤ) : ℤ :=
  row1Y h - jround (22 * scaleF h) + jround (5 * scaleF h) - jround (4 * scaleF h)

/-! ## Claim inputs and specification-side definitions -/

/-- The (name, secondary key, content) triples of the entries, once the
attribute bags are known to be present. -/
abbrev KV : Type := String × String × Option String

/-- A raw entry carrying the given name, secondary key and content. -/
def mkEntry (kv : KV) : RawEntry := { content := kv.2.2, attrs := some (kv.1, kv.2.1) }

/-- The pure fold underlying condReduce on attribute-complete entries. -/
def condFold (kvs : List KV) : TwoMap := kvs.foldl condStep []

/-- Lookup through both levels of the two-level mapping. -/
def jsGet2 (m : TwoMap) (n k : String) : Option (Option String) :=
  (jsGet m n).bind (fun inner => jsGet inner k)

/-- The last entry with the given (name, secondary key) pair, if any, and
its content. -/
def lastWins (kvs : List KV) (n k : String) : Option (Option String) :=
  (kvs.reverse.find? (fun kv => kv.1 == n && kv.2.1 == k)).map (fun kv => kv.2.2)

/-- Key list in order of first appearance. -/
def firstKeys (l : List String) : List String :=
  l.foldl (fun acc n => if n ∈ acc then acc else acc ++ [n]) []

/-- A raw solardata element whose solarflux field carries non-numeric
text. -/
def cxSolar : SolarData := { solarflux := some ["abc"] }

/-- Projection of the solarflux field out of a parse result. -/
def solarfluxOf : Except JsErr Record → Option JsVal
  | .ok r => some r.solarflux
  | .error _ => none

/-- The black-and-white settings a request with bw_mode equal to 1
produces. -/
def bwSettings : Settings := { defaultSettings with bw_mode := 1 }

/-- Every entry of the first band list. -/
def ccEntries (sd : SolarData) : List RawEntry :=
  match sd.calculatedconditions with
  | some (g :: _) => g.band.getD []
  | _ => []

/-- Every entry of the first phenomenon list. -/
def vhfEntries (sd : SolarData) : List RawEntry :=
  match sd.calculatedvhfconditions with
  | some (g :: _) => g.phenomenon.getD []
  | _ => []

/-- An entry carries its attribute bag. -/
def entryHasAttrs (e : RawEntry) : Bool := e.attrs.isSome

/-- All condition entries the reduce folds will touch carry attribute
bags. -/
def entriesOk (sd : SolarData) : Bool :=
  (ccEntries sd ++ vhfEntries sd).all entryHasAttrs

/-- The parse result is a record (no thrown error). -/
def okRecord : Except JsErr Record → Bool
  | .ok _ => true
  | .error _ => false

/-- Projection of the calculatedconditions mapping out of a parse
result. -/
def ccOfResult : Except JsErr Record → Option TwoMap
  | .ok r => some r.calculatedconditions
  | .error _ => none

/-- Projection of the calculatedvhfconditions mapping out of a parse
result. -/
def vhfOfResult : Except JsErr Record → Option TwoMap
  | .ok r => some r.calculatedvhfconditions
  | .error _ => none

/-- A band entry with text content but no attribute bag. -/
def cxEntry : RawEntry := { content := some "Good" }

/-- A calculatedconditions wrapper holding the single bad entry. -/
def cxGroup : CondGroup := { band := some [cxEntry] }

/-- A solardata element whose band list holds the single bad entry. -/
def cxSolarData : SolarData := { calculatedconditions := some [cxGroup] }

/-- A decoded document with the envelope present whose single band entry
has text content but no attribute bag. -/
def cxDoc : RawResult :=
  { solar := some { solardata := some [cxSolarData] } }

/-- The classification exactly as the specification words it: suppression
when mode is 0 or black-and-white is active, then good or mid lat aur,
then fair, then poor or closed, first match winning, case-insensitive
substring matching. Stated from the specification to be compared with
setConditionColor as embedded from the source. -/
def specConditionColor (st : Settings) (c : String) : String :=
  let colors := chooseColors st
  if st.mode = 0 ∨ st.bw_mode = 1 then colors.text
  else if strIncludes (lowerStr c) "good" || strIncludes (lowerStr c) "mid lat aur"
    then colors.good
  else if strIncludes (lowerStr c) "fair" then colors.fair
  else if strIncludes (lowerStr c) "poor" || strIncludes (lowerStr c) "closed"
    then colors.poor
  else colors.text

/-- The query of a request supplying the parameter blackAndWhite with
value 1 and nothing else. -/
def cxQuery : Query := [("blackAndWhite", "1")]

/-- The settings of a request with height 960 before rendering. -/
def st960 : Settings := { defaultSettings with height := some 960 }

/-! ## Helper lemmas on JavaScript object maps -/

lemma jsGet_jsSet_self {a : Type} (m : List (String × a)) (k : String) (v : a) :
    jsGet (jsSet m k v) k = some v := by
  induction m with
  | nil => simp [jsGet, jsSet]
  | cons p rest ih =>
    by_cases h : p.1 = k
    · simp [jsSet, h, jsGet]
    · simp [jsSet, h, jsGet, ih]

lemma jsGet_jsSet_ne {a : Type} (m : List (String × a)) (k k' : String) (v : a)
    (hne : k' ≠ k) : jsGet (jsSet m k v) k' = jsGet m k' := by
  induction m with
  | nil => simp [jsGet, jsSet, Ne.symm hne]
  | cons p rest ih =>
    obtain ⟨pk, pv⟩ := p
    by_cases h : pk = k
    · subst h
      simp [jsSet, jsGet, Ne.symm hne]
    · simp [jsSet, jsGet, h, ih]

lemma mem_keys_iff_jsGet {a : Type} (m : List (String × a)) (k : String) :
    k ∈ m.map Prod.fst ↔ (jsGet m k).isSome := by
  induction m with
  | nil => simp [jsGet]
  | cons p rest ih =>
    by_cases h : p.1 = k
    · simp [jsGet, h]
    · simp [jsGet, h, ih, Ne.symm h]

lemma keys_jsSet {a : Type} (m : List (String × a)) (k : String) (v : a) :
    (jsSet m k v).map Prod.fst =
      if (jsGet m k).isSome then m.map Prod.fst else m.map Prod.fst ++ [k] := by
  induction m with
  | nil => simp [jsGet, jsSet]
  | cons p rest ih =>
    by_cases h : p.1 = k
    · simp [jsSet, h, jsGet]
    · simp only [jsSet, h, if_false, List.map_cons, jsGet, ih]
      by_cases h2 : (jsGet rest k).isSome
      · simp [h2]
      · simp [h2]

lemma jsGet_getD_bind {a : Type} (o : Option (List (String × a))) (k : String) :
    jsGet (o.getD []) k = o.bind (fun m => jsGet m k) := by
  cases o <;> simp [jsGet]

/-! ## Helper lemmas on the condition fold -/

lemma condFold_append (kvs : List KV) (e : KV) :
    condFold (kvs ++ [e]) = condStep (condFold kvs) e := by
  simp [condFold, List.foldl_append]

lemma jsGet2_condStep (m : TwoMap) (e : KV) (n k : String) :
    jsGet2 (condStep m e) n k =
      if e.1 = n ∧ e.2.1 = k then some e.2.2 else jsGet2 m n k := by
  by_cases hn : e.1 = n
  · subst hn
    by_cases hk : e.2.1 = k
    · subst hk
      simp [jsGet2, condStep, jsGet_jsSet_self]
    · simp only [jsGet2, condStep, jsGet_jsSet_self, Option.some_bind,
        hk, and_false, if_false]
      rw [jsGet_jsSet_ne _ _ _ _ (fun h => hk h.symm), jsGet_getD_bind]
  · simp only [hn, false_and, if_false, jsGet2, condStep]
    rw [jsGet_jsSet_ne _ _ _ _ (fun h => hn h.symm)]

lemma jsGet2_condFold (kvs : List KV) (n k : String) :
    jsGet2 (condFold kvs) n k = lastWins kvs n k := by
  induction kvs using List.reverseRecOn with
  | nil => simp [condFold, jsGet2, jsGet, lastWins]
  | append_singleton l e ih =>
    rw [condFold_append, jsGet2_condStep]
    by_cases he : e.1 = n ∧ e.2.1 = k
    · simp only [he, if_true]
      simp [lastWins, List.find?, he.1, he.2]
    · simp only [he, if_false, ih]
      simp only [lastWins, List.reverse_append, List.reverse_singleton,
        List.singleton_append, List.find?]
      have : (e.1 == n && e.2.1 == k) = false := by
        rcases not_and_or.mp he with h | h <;> simp [h]
      simp [this]

lemma keys_condFold (kvs : List KV) :
    (condFold kvs).map Prod.fst = firstKeys (kvs.map Prod.fst) := by
  induction kvs using List.reverseRecOn with
  | nil => simp [condFold, firstKeys]
  | append_singleton l e ih =>
    rw [condFold_append]
    have hk : firstKeys ((l ++ [e]).map Prod.fst) =
        if e.1 ∈ firstKeys (l.map Prod.fst) then firstKeys (l.map Prod.fst)
        else firstKeys (l.map Prod.fst) ++ [e.1] := by
      simp [firstKeys, List.foldl_append]
    rw [hk, ← ih]
    have hmem := mem_keys_iff_jsGet (condFold l) e.1
    rw [condStep, keys_jsSet]
    by_cases h : (jsGet (condFold l) e.1).isSome
    · simp only [h, if_true]
      rw [if_pos (hmem.mpr h)]
    · simp only [h, if_false]
      rw [if_neg (fun hm => h (hmem.mp hm))]
      simp

lemma condReduce_mkEntry (kvs : List KV) :
    condReduce (kvs.map mkEntry) = .ok (condFold kvs) := by
  suffices h : ∀ acc, ((kvs.map mkEntry).foldlM
      (fun acc e => (entryKV e).map (condStep acc)) acc : Except JsErr TwoMap)
      = .ok (kvs.foldl condStep acc) by
    exact h []
  induction kvs with
  | nil => intro acc; simp [List.foldlM]; rfl
  | cons kv rest ih =>
    intro acc
    obtain ⟨n, k, c⟩ := kv
    simp only [List.map_cons, List.foldlM, List.foldl_cons]
    have : entryKV (mkEntry (n, k, c)) = .ok (n, k, c) := rfl
    rw [this]
    exact ih (condStep acc (n, k, c))

lemma condReduce_ok_of_attrs (es : List RawEntry)
    (h : ∀ e ∈ es, e.attrs.isSome) : ∃ m, condReduce es = .ok m := by
  suffices hs : ∀ acc, ∃ m, (es.foldlM
      (fun acc e => (entryKV e).map (condStep acc)) acc : Except JsErr TwoMap)
      = .ok m by
    exact hs []
  induction es with
  | nil => intro acc; exact ⟨acc, by simp [List.foldlM]; rfl⟩
  | cons e rest ih =>
    intro acc
    have he : e.attrs.isSome := h e (List.mem_cons_self e rest)
    obtain ⟨⟨n, k⟩, hat⟩ : ∃ p, e.attrs = some p := by
      cases hx : e.attrs with
      | none => rw [hx] at he; simp at he
      | some p => exact ⟨p, rfl⟩
    have hrest : ∀ x ∈ rest, x.attrs.isSome := fun x hx =>
      h x (List.mem_cons_of_mem e hx)
    obtain ⟨m, hm⟩ := (fun acc => ih (fun x hx => hrest x hx) acc)
      (condStep acc (n, k, e.content))
    refine ⟨m, ?_⟩
    simp only [List.foldlM]
    have : entryKV e = .ok (n, k, e.content) := by simp [entryKV, hat]
    rw [this]
    exact hm

lemma condsOf_ok_of (sd : SolarData)
    (h : ∀ e ∈ ccEntries sd, e.attrs.isSome) : ∃ m, condsOf sd = .ok m := by
  cases hc : sd.calculatedconditions with
  | none => exact ⟨[], by simp [condsOf, hc]⟩
  | some l =>
    cases l with
    | nil => exact ⟨[], by simp [condsOf, hc]⟩
    | cons g gs =>
      cases hb : g.band with
      | none => exact ⟨[], by simp [condsOf, hc, hb]⟩
      | some es =>
        have hcc : ccEntries sd = es := by simp [ccEntries, hc, hb]
        obtain ⟨m, hm⟩ := condReduce_ok_of_attrs es (fun e he => h e (hcc ▸ he))
        exact ⟨m, by simp [condsOf, hc, hb, hm]⟩

lemma vhfOf_ok_of (sd : SolarData)
    (h : ∀ e ∈ vhfEntries sd, e.attrs.isSome) : ∃ m, vhfOf sd = .ok m := by
  cases hc : sd.calculatedvhfconditions with
  | none => exact ⟨[], by simp [vhfOf, hc]⟩
  | some l =>
    cases l with
    | nil => exact ⟨[], by simp [vhfOf, hc]⟩
    | cons g gs =>
      cases hb : g.phenomenon with
      | none => exact ⟨[], by simp [vhfOf, hc, hb]⟩
      | some es =>
        have hcc : vhfEntries sd = es := by simp [vhfEntries, hc, hb]
        obtain ⟨m, hm⟩ := condReduce_ok_of_attrs es (fun e he => h e (hcc ▸ he))
        exact ⟨m, by simp [vhfOf, hc, hb, hm]⟩

/-! ## Concrete layout values at the baseline height and at double height -/

lemma lineSpacing_at_480 : lineSpacing 480 = 30 := by
  norm_num [lineSpacing, scaleF, jround, Rat.floor]

lemma lineSpacing_at_960 : lineSpacing 960 = 60 := by
  norm_num [lineSpacing, scaleF, jround, Rat.floor]

lemma row1Y_at_480 : row1Y 480 = 125 := by
  norm_num [row1Y, scaleF, jround, Rat.floor]

lemma row1Y_at_960 : row1Y 960 = 250 := by
  norm_num [row1Y, scaleF, jround, Rat.floor]

lemma yPosAfterTable_at_480 : yPosAfterTable 480 = 245 := by
  rw [yPosAfterTable, row1Y_at_480, lineSpacing_at_480]; norm_num

lemma yPosAfterTable_at_960 : yPosAfterTable 960 = 490 := by
  rw [yPosAfterTable, row1Y_at_960, lineSpacing_at_960]; norm_num

lemma sep2Y_at_480 : sep2Y 480 = 240 := by
  rw [sep2Y, yPosAfterTable_at_480, lineSpacing_at_480]
  norm_num [jround, Rat.floor]

lemma sep2Y_at_960 : sep2Y 960 = 480 := by
  rw [sep2Y, yPosAfterTable_at_960, lineSpacing_at_960]
  norm_num [jround, Rat.floor]

lemma hfTitleY_at_480 : hfTitleY 480 = 285 := by
  rw [hfTitleY, yPosAfterTable_at_480, lineSpacing_at_480]
  norm_num [jround, Rat.floor]

lemma hfTitleY_at_960 : hfTitleY 960 = 570 := by
  rw [hfTitleY, yPosAfterTable_at_960, lineSpacing_at_960]
  norm_num [jround, Rat.floor]

lemma vhfTitleY_at_480 : vhfTitleY 480 = 285 := by
  norm_num [vhfTitleY, scaleF, jround, Rat.floor]

lemma vhfTitleY_at_960 : vhfTitleY 960 = 570 := by
  norm_num [vhfTitleY, scaleF, jround, Rat.floor]

lemma lastColStartY_at_480 : lastColStartY 480 = 315 := by
  norm_num [lastColStartY, scaleF, jround, Rat.floor]

lemma lastColStartY_at_960 : lastColStartY 960 = 630 := by
  norm_num [lastColStartY, scaleF, jround, Rat.floor]

/-! ## The claims -/

/-- Claim C1 counterexample: a present but non-numeric solarflux input
parses to the NaN integer value, which is neither the sentinel N/A nor a
valid number. -/
theorem counterexample_C1 :
    solarfluxOf (recordOf cxSolar) = some (JsVal.int none) ∧
    numericOk (JsVal.int none) = false := by
  exact ⟨rfl, rfl⟩

/-- Claim C1, amended: every scalar field of the canonical record is
always constructed: an absent or element-less input array yields the
sentinel N/A, otherwise the first element is converted per the target
type; string-typed fields are always plain strings, while the numeric
conversions may yield NaN (int none or float none) on non-numeric text
rather than the sentinel or a valid number. -/
theorem claim_C1 :
    (∀ arr ty, (arr = none ∨ arr = some ([] : List String)) →
      safeParse arr ty = .str "N/A") ∧
    (∀ v rest, safeParse (some (v :: rest)) .int = .int (jsParseInt10 v) ∧
      safeParse (some (v :: rest)) .float = .float (jsParseFloat v) ∧
      safeParse (some (v :: rest)) .string = .str v) ∧
    (∀ arr, ∃ s, safeParse arr .string = .str s) ∧
    (∀ sd cc vhf, condsOf sd = .ok cc → vhfOf sd = .ok vhf →
      recordOf sd = .ok {
        source := safeParse sd.source .string
        updated := safeParse sd.updated .string
        solarflux := safeParse sd.solarflux .int
        aindex := safeParse sd.aindex .int
        kindex := safeParse sd.kindex .int
        kindexnt := safeParse sd.kindexnt .string
        xray := safeParse sd.xray .string
        sunspots := safeParse sd.sunspots .int
        heliumline := safeParse sd.heliumline .float
        protonflux := safeParse sd.protonflux .int
        electonflux := safeParse sd.electonflux .int
        aurora := safeParse sd.aurora .int
        normalization := safeParse sd.normalization .float
        latdegree := safeParse sd.latdegree .float
        solarwind := safeParse sd.solarwind .float
        magneticfield := safeParse sd.magneticfield .float
        geomagfield := safeParse sd.geomagfield .string
        signalnoise := safeParse sd.signalnoise .string
        fof2 := safeParse sd.fof2 .string
        muf := safeParse sd.muf .string
        muffactor := safeParse sd.muffactor .string
        calculatedconditions := cc
        calculatedvhfconditions := vhf }) := by
  refine ⟨?_, ?_, ?_, ?_⟩
  · rintro arr ty (rfl | rfl) <;> rfl
  · intro v rest; exact ⟨rfl, rfl, rfl⟩
  · intro arr
    rcases arr with _ | ⟨_ | ⟨v, rest⟩⟩
    · exact ⟨"N/A", rfl⟩
    · exact ⟨"N/A", rfl⟩
    · exact ⟨v, rfl⟩
  · intro sd cc vhf h1 h2
    simp only [recordOf, h1, h2]
    rfl

/-- Claim C1 witness: an absent field parses to the sentinel. -/
theorem claim_C1_witness : safeParse none SType.int = JsVal.str "N/A" :=
  claim_C1.1 none SType.int (Or.inl rfl)

/-- Claim C2 counterexample: the second line of the right-hand metrics
column at height 960 is at y 693, not double its height-480 position 348
and not that baseline position rescaled, because the per-line advance adds
an unscaled 3 pixels. -/
theorem counterexample_C2 :
    lastColRowY 960 1 ≠ 2 * lastColRowY 480 1 ∧
    lastColRowY 960 1 ≠ jround ((lastColRowY 480 1 : ℚ) * ((960 : ℚ) / 480)) := by
  have h480 : lastColRowY 480 1 = 348 := by
    rw [lastColRowY, lastColStartY_at_480, lineSpacing_at_480]; norm_num
  have h960 : lastColRowY 960 1 = 693 := by
    rw [lastColRowY, lastColStartY_at_960, lineSpacing_at_960]; norm_num
  rw [h480, h960]
  constructor
  · norm_num
  · norm_num [jround, Rat.floor]

/-- Claim C2, amended: at double height 960 every drawn absolute
y-coordinate and font size is exactly double its height-480 baseline value
except the right-hand metrics column, whose per-line advance adds an
unscaled 3 pixels, so its line k sits at double the baseline minus 3k. -/
theorem claim_C2 :
    headerY 960 = 2 * headerY 480 ∧
    subtitleY 960 = 2 * subtitleY 480 ∧
    sep1Y 960 = 2 * sep1Y 480 ∧
    (∀ k : ℤ, tableRowY 960 k = 2 * tableRowY 480 k) ∧
    sep2Y 960 = 2 * sep2Y 480 ∧
    hfTitleY 960 = 2 * hfTitleY 480 ∧
    hfHeaderY 960 = 2 * hfHeaderY 480 ∧
    (∀ k : ℤ, hfBandRowY 960 k = 2 * hfBandRowY 480 k) ∧
    vhfTitleY 960 = 2 * vhfTitleY 480 ∧
    (∀ k : ℤ, vhfRowY 960 k = 2 * vhfRowY 480 k) ∧
    rectRow1Y 960 = 2 * rectRow1Y 480 ∧
    lineSpacing 960 = 2 * lineSpacing 480 ∧
    jround (20 * scaleF 960) = 2 * jround (20 * scaleF 480) ∧
    jround (22 * scaleF 960) = 2 * jround (22 * scaleF 480) ∧
    (∀ k : ℤ, lastColRowY 960 k = 2 * lastColRowY 480 k - 3 * k) := by
  have h116a : jround ((30 : ℚ) * (116/100)) = 35 := by
    norm_num [jround, Rat.floor]
  have h116b : jround ((60 : ℚ) * (116/100)) = 70 := by
    norm_num [jround, Rat.floor]
  have h113a : jround ((30 : ℚ) * (113/100)) = 34 := by
    norm_num [jround, Rat.floor]
  have h113b : jround ((60 : ℚ) * (113/100)) = 68 := by
    norm_num [jround, Rat.floor]
  refine ⟨?_, ?_, ?_, ?_, ?_, ?_, ?_, ?_, ?_, ?_, ?_, ?_, ?_, ?_, ?_⟩
  · norm_num [headerY, scaleF, jround, Rat.floor]
  · norm_num [subtitleY, scaleF, jround, Rat.floor]
  · norm_num [sep1Y, scaleF, jround, Rat.floor]
  · intro k
    rw [tableRowY, tableRowY, row1Y_at_480, row1Y_at_960,
      lineSpacing_at_480, lineSpacing_at_960]
    ring
  · rw [sep2Y_at_480, sep2Y_at_960]; norm_num
  · rw [hfTitleY_at_480, hfTitleY_at_960]; norm_num
  · rw [hfHeaderY, hfHeaderY, hfTitleY_at_480, hfTitleY_at_960,
      lineSpacing_at_480, lineSpacing_at_960]
    norm_num
  · intro k
    rw [hfBandRowY, hfBandRowY, hfHeaderY, hfHeaderY, hfTitleY_at_480,
      hfTitleY_at_960, lineSpacing_at_480, lineSpacing_at_960]
    push_cast
    rw [h116a, h116b]
    ring
  · rw [vhfTitleY_at_480, vhfTitleY_at_960]; norm_num
  · intro k
    rw [vhfRowY, vhfRowY, vhfTitleY_at_480, vhfTitleY_at_960,
      lineSpacing_at_480, lineSpacing_at_960]
    push_cast
    rw [h113a, h113b]
    ring
  · rw [rectRow1Y, rectRow1Y, row1Y_at_480, row1Y_at_960]
    norm_num [scaleF, jround, Rat.floor]
  · rw [lineSpacing_at_480, lineSpacing_at_960]; norm_num
  · norm_num [scaleF, jround, Rat.floor]
  · norm_num [scaleF, jround, Rat.floor]
  · intro k
    rw [lastColRowY, lastColRowY, lastColStartY_at_480, lastColStartY_at_960,
      lineSpacing_at_480, lineSpacing_at_960]
    ring

/-- Claim C3 counterexample: with the black-and-white theme active, the
HF table draws the condition Good in white on its black highlight box
while the condition Fair is drawn in black, so two distinct condition
strings get different ink colors. -/
theorem counterexample_C3 :
    hfCellInkColor bwSettings "Good" = "#ffffff" ∧
    hfCellInkColor bwSettings "Fair" = "#000000" ∧
    ("#ffffff" : String) ≠ "#000000" := by
  refine ⟨rfl, rfl, by decide⟩

/-- Claim C3, amended: when the black-and-white theme is active,
setConditionColor yields the single ink color for every condition string,
and all condition text drawn outside a highlight box uses it; but an HF
table cell whose condition contains good (case-insensitively) is drawn in
white on a black highlight box, so condition text can use two colors. -/
theorem claim_C3 :
    ∀ (st : Settings) (c : String), st.bw_mode = 1 →
      setConditionColor st c = "#000000" ∧
      hfCellInkColor st c =
        (if strIncludes (lowerStr c) "good" then "#ffffff" else "#000000") := by
  intro st c h
  constructor
  · simp [setConditionColor, chooseColors, h, themeBW]
  · cases hg : strIncludes (lowerStr c) "good" <;>
      simp [hfCellInkColor, drawConditionCellTextColor, hg, h,
        setConditionColor, chooseColors, themeBW]

/-- Claim C3 witness: setConditionColor at the black-and-white settings
returns the single ink color on a sample condition. -/
theorem claim_C3_witness : setConditionColor bwSettings "Fair" = "#000000" :=
  (claim_C3 bwSettings "Fair" rfl).1

/-- Claim C4 counterexample: a document that does contain the top-level
solar-data envelope still makes parse throw, because destructuring the
attribute bag of an attribute-less band entry is a TypeError. -/
theorem counterexample_C4 :
    hasEnvelope cxDoc = true ∧ parseSolarXml cxDoc = .error .typeError := by
  exact ⟨rfl, rfl⟩

/-- Claim C4, amended: parse throws when the envelope is absent; given the
envelope it never fails because a scalar leaf field is missing, and an
absent nested collection yields the empty mapping; but it also throws when
a nested condition entry lacks its attribute bag. -/
theorem claim_C4 :
    (∀ r : RawResult, hasEnvelope r = false →
      parseSolarXml r = .error .typeError) ∧
    (∀ sd rest, parseSolarXml ⟨some ⟨some (sd :: rest)⟩⟩ = recordOf sd) ∧
    (∀ sd, entriesOk sd = true → okRecord (recordOf sd) = true) ∧
    (∀ sd, sd.calculatedconditions = none →
      sd.calculatedvhfconditions = none →
      ccOfResult (recordOf sd) = some [] ∧
      vhfOfResult (recordOf sd) = some []) := by
  refine ⟨?_, ?_, ?_, ?_⟩
  · intro r h
    rcases r with ⟨_ | so⟩
    · rfl
    · rcases so with ⟨_ | l⟩
      · rfl
      · cases l with
        | nil => rfl
        | cons sd rest => simp [hasEnvelope] at h
  · intro sd rest; rfl
  · intro sd h
    have hall := List.all_eq_true.mp h
    have h1 : ∀ e ∈ ccEntries sd, e.attrs.isSome := fun e he =>
      hall e (List.mem_append_left _ he)
    have h2 : ∀ e ∈ vhfEntries sd, e.attrs.isSome := fun e he =>
      hall e (List.mem_append_right _ he)
    obtain ⟨cc, hcc⟩ := condsOf_ok_of sd h1
    obtain ⟨vhf, hvhf⟩ := vhfOf_ok_of sd h2
    simp only [recordOf, hcc, hvhf]
    rfl
  · intro sd h1 h2
    have hcc : condsOf sd = .ok [] := by simp [condsOf, h1]
    have hvhf : vhfOf sd = .ok [] := by simp [vhfOf, h2]
    constructor <;> (simp only [recordOf, hcc, hvhf]; rfl)

/-- Claim C4 witness: the empty document fails, and a solardata element
with no nested collections parses to empty mappings. -/
theorem claim_C4_witness :
    parseSolarXml { solar := none } = .error .typeError ∧
    okRecord (recordOf ({} : SolarData)) = true ∧
    ccOfResult (recordOf ({} : SolarData)) = some [] := by
  exact ⟨claim_C4.1 { solar := none } rfl, claim_C4.2.2.1 {} rfl,
    (claim_C4.2.2.2 {} rfl rfl).1⟩

/-- Claim C5: the reduce fold over attribute-complete entries builds the
two-level mapping keyed by name then by the secondary attribute with the
entry text as value; a duplicate (name, secondary) pair is overwritten by
the later entry (last write wins), and the outer keys appear in insertion
order of each name first appearance. -/
theorem claim_C5 :
    (∀ kvs : List KV, condReduce (kvs.map mkEntry) = .ok (condFold kvs)) ∧
    (∀ (kvs : List KV) (n k : String),
      jsGet2 (condFold kvs) n k = lastWins kvs n k) ∧
    (∀ kvs : List KV,
      (condFold kvs).map Prod.fst = firstKeys (kvs.map Prod.fst)) :=
  ⟨condReduce_mkEntry, jsGet2_condFold, keys_condFold⟩

/-- Claim C6: setConditionColor is exactly the case-insensitive,
first-match-wins substring classification in the order good or mid lat
aur, fair, poor or closed, suppressed to the default text color under
mode 0 or the black-and-white theme; in particular Good, Mid Lat Aur is
good and Poor/Closed is poor under the colored default settings. -/
theorem claim_C6 :
    (∀ st c, setConditionColor st c = specConditionColor st c) ∧
    setConditionColor defaultSettings "Good, Mid Lat Aur" = themeNormal.good ∧
    setConditionColor defaultSettings "Poor/Closed" = themeNormal.poor := by
  refine ⟨?_, by decide, by decide⟩
  intro st c
  by_cases hbw : st.bw_mode = 1
  · simp [setConditionColor, specConditionColor, hbw]
  · by_cases hm : st.mode = 0
    · simp [setConditionColor, specConditionColor, hbw, hm]
    · cases hg : strIncludes (lowerStr c) "good" <;>
        cases hmid : strIncludes (lowerStr c) "mid lat aur" <;>
        cases hf : strIncludes (lowerStr c) "fair" <;>
        cases hp : strIncludes (lowerStr c) "poor" <;>
        cases hcl : strIncludes (lowerStr c) "closed" <;>
        simp [setConditionColor, specConditionColor, hbw, hm, hg, hmid,
          hf, hp, hcl]

/-- Claim C7: the cache getter errors exactly when nothing was ever
fetched and the current attempt fails; within the refresh interval it
returns the cached payload without attempting a fetch; after the interval
a failing refetch still returns the stale payload. -/
theorem claim_C7 :
    ∀ (now : ℤ) (fetch : Option String) (st : CacheState),
      ((getSolarXml now fetch st).1 = .error () ↔
        st.lastData = none ∧ fetch = none) ∧
      (∀ d, st.lastData = some d → now - st.lastFetch ≤ cacheInterval →
        getSolarXml now fetch st = (.ok d, st, false)) ∧
      (∀ d, st.lastData = some d → now - st.lastFetch > cacheInterval →
        fetch = none → (getSolarXml now fetch st).1 = .ok d) := by
  intro now fetch st
  obtain ⟨lf, ld⟩ := st
  refine ⟨?_, ?_, ?_⟩
  · cases ld with
    | none => cases fetch <;> simp [getSolarXml]
    | some d =>
      by_cases hg : now - lf > cacheInterval
      · cases fetch <;> simp [getSolarXml, hg]
      · simp [getSolarXml, hg]
  · intro d hd hle
    cases hd
    have hgt : ¬ now - lf > cacheInterval := not_lt.mpr hle
    simp [getSolarXml, hgt]
  · intro d hd hgt hf
    cases hd
    cases hf
    simp [getSolarXml, hgt]

/-- Claim C7 witness: with a stale cached payload and a failing refetch,
the stale payload is returned. -/
theorem claim_C7_witness :
    (getSolarXml 400000 none ⟨0, some "cached"⟩).1 = .ok "cached" :=
  (claim_C7 400000 none ⟨0, some "cached"⟩).2.2 "cached" rfl (by decide) rfl

/-- Claim C8 counterexample: supplying blackAndWhite=1 does not enable the
black-and-white theme; the middleware reads the parameter bw_mode and
ignores blackAndWhite entirely, producing the same settings as an empty
query. -/
theorem counterexample_C8 :
    (applySettings cxQuery defaultSettings).bw_mode = 0 ∧
    applySettings cxQuery defaultSettings = applySettings [] defaultSettings := by
  exact ⟨rfl, rfl⟩

/-- Claim C8, amended: each recognized query parameter that is absent
takes its documented default (mode 1, invert 0, width 800, height 480,
black-and-white disabled), and the parameter enabling the black-and-white
theme is named bw_mode, enabled by the value 1. -/
theorem claim_C8 :
    ∀ (q : Query) (st : Settings),
      (jsGet q "mode" = none → (applySettings q st).mode = 1) ∧
      (jsGet q "invert" = none → (applySettings q st).invert = 0) ∧
      (jsGet q "width" = none → (applySettings q st).width = some 800) ∧
      (jsGet q "height" = none → (applySettings q st).height = some 480) ∧
      (jsGet q "bw_mode" = none → (applySettings q st).bw_mode = 0) ∧
      (jsGet q "bw_mode" = some "1" → (applySettings q st).bw_mode = 1) := by
  intro q st
  refine ⟨?_, ?_, ?_, ?_, ?_, ?_⟩ <;> intro h <;>
    simp [applySettings, h, defaultSettings]

/-- Claim C8 witness: the empty query yields the default mode. -/
theorem claim_C8_witness : (applySettings [] defaultSettings).mode = 1 :=
  (claim_C8 [] defaultSettings).1 rfl

/-- Claim C9 counterexample: renderSolarCanvas mutates the settings
object: at height 960 the small font size field is 20 before render and
40 after, so the configuration is not identical before and after render
executes. -/
theorem counterexample_C9 :
    (renderSettingsUpdate st960).fontSizeSmall = some 40 ∧
    st960.fontSizeSmall = some 20 ∧
    (renderSettingsUpdate st960).fontSizeSmall ≠ st960.fontSizeSmall := by
  have h : (renderSettingsUpdate st960).fontSizeSmall = some 40 := by
    simp only [renderSettingsUpdate, st960, defaultSettings, Option.map_some]
    norm_num [jround, scaleF, Rat.floor]
  refine ⟨h, rfl, ?_⟩
  rw [h]
  decide

/-- Claim C9, amended: renderSolarCanvas overwrites the three font size
fields of the process-wide settings object with the scaled rounded
baselines at the start of drawing, and leaves mode, invert, width, height,
bw_mode and the line spacing default unchanged; the settings object itself
is module-global shared state written by the per-request middleware, not a
request-scoped value. -/
theorem claim_C9 :
    ∀ (st : Settings) (h : ℤ), st.height = some h →
      (renderSettingsUpdate st).mode = st.mode ∧
      (renderSettingsUpdate st).invert = st.invert ∧
      (renderSettingsUpdate st).width = st.width ∧
      (renderSettingsUpdate st).height = st.height ∧
      (renderSettingsUpdate st).bw_mode = st.bw_mode ∧
      (renderSettingsUpdate st).LINE_SPACING_DEFAULT =
        st.LINE_SPACING_DEFAULT ∧
      (renderSettingsUpdate st).fontSizeSmall = some (jround (20 * scaleF h)) ∧
      (renderSettingsUpdate st).fontSizeNormal = some (jround (22 * scaleF h)) ∧
      (renderSettingsUpdate st).fontSizeLarge = some (jround (22 * scaleF h)) := by
  intro st h hh
  simp [renderSettingsUpdate, hh]

/-- Claim C9 witness: render leaves the mode field unchanged at the
height-960 settings. -/
theorem claim_C9_witness : (renderSettingsUpdate st960).mode = st960.mode :=
  (claim_C9 st960 960 rfl).1

/-- Claim C10: an unrecognized mode or invert value is silently replaced
by the default (mode 1, invert 0); the effective mode and invert are
always 0 or 1. -/
theorem claim_C10 :
    ∀ (q : Query) (st : Settings),
      ((applySettings q st).mode = 0 ∨ (applySettings q st).mode = 1) ∧
      ((applySettings q st).invert = 0 ∨ (applySettings q st).invert = 1) ∧
      (∀ s, jsGet q "mode" = some s → s ≠ "0" → s ≠ "1" →
        (applySettings q st).mode = 1) ∧
      (∀ s, jsGet q "invert" = some s → s ≠ "0" → s ≠ "1" →
        (applySettings q st).invert = 0) := by
  intro q st
  refine ⟨?_, ?_, ?_, ?_⟩
  · dsimp only [applySettings]
    split
    · left; rfl
    · right; rfl
    · right; rfl
  · dsimp only [applySettings]
    split
    · left; rfl
    · right; rfl
    · left; rfl
  · intro s hs h0 h1
    dsimp only [applySettings]
    rw [hs]
    split <;> simp_all [defaultSettings]
  · intro s hs h0 h1
    dsimp only [applySettings]
    rw [hs]
    split <;> simp_all [defaultSettings]

/-- Claim C10 witness: a request with mode=banana and invert=2 gets the
defaults. -/
theorem claim_C10_witness :
    (applySettings [("mode", "banana"), ("invert", "2")] defaultSettings).mode
        = 1 ∧
    (applySettings [("mode", "banana"), ("invert", "2")] defaultSettings).invert
        = 0 :=
  ⟨(claim_C10 [("mode", "banana"), ("invert", "2")] defaultSettings).2.2.1
      "banana" rfl (by decide) (by decide),
    (claim_C10 [("mode", "banana"), ("invert", "2")] defaultSettings).2.2.2
      "2" rfl (by decide) (by decide)⟩

end HfProp
